import Mathlib

/-!
Verification of the research-loop orchestrator of `local-deep-researcher`
(`src/ollama_deep_researcher/graph.py`, `configuration.py`) against its
natural-language specification.

Python strings are modelled as `List Char` (`PyStr`), so that the
character-level operations the code uses (`split("\n")`, `strip()`,
`startswith`, truthiness) are plain structural recursions.  External
collaborators (the search backends, the LLM call, `json.loads`, the
`strip_thinking_tokens` text cleanup) are parameters of the node
functions: each node is a function of the state and of the outcome of
its external calls, exactly mirroring the Python control flow around
those calls.
-/

/-- A Python string, modelled as its list of characters. -/
abbrev PyStr := List Char

/-- Characters removed by Python `str.strip()` (ASCII whitespace). -/
def isPySpace (c : Char) : Bool :=
  c = ' ' || c = '\t' || c = '\n' || c = '\r' || c = '\x0b' || c = '\x0c'

/-- Python `s.strip()`: drop leading and trailing whitespace. -/
def pyStrip (s : PyStr) : PyStr :=
  ((s.dropWhile isPySpace).reverse.dropWhile isPySpace).reverse

/-- Python `s.split("\n")`: split at every newline, keeping empty pieces;
the empty string yields `[""]`. -/
def pySplitNl : PyStr → List PyStr
  | [] => [[]]
  | c :: cs =>
    if c = '\n' then [] :: pySplitNl cs
    else
      match pySplitNl cs with
      | [] => [[c]]
      | p :: ps => (c :: p) :: ps

/-- Python `s.startswith(pre)`. -/
def pyStartsWith : PyStr → PyStr → Bool
  | _, [] => true
  | [], _ :: _ => false
  | c :: cs, p :: ps => c = p && pyStartsWith cs ps

/-- Python `x or d` for an optional string `x` and string default `d`:
returns `d` when `x` is `None` or empty (falsy), else the string in `x`. -/
def pyOrStr (x : Option PyStr) (d : PyStr) : PyStr :=
  match x with
  | none => d
  | some s => if s = [] then d else s

/-- Python f-string interpolation of an optional string: `None` prints as
the four characters `None`. -/
def fString (x : Option PyStr) : PyStr :=
  match x with
  | none => ("None").toList
  | some s => s

/-- The search-backend selection, from the `Literal` type of
`Configuration.search_api` in `configuration.py` (exactly four values). -/
inductive SearchAPI where
  | perplexity
  | tavily
  | duckduckgo
  | searxng
deriving DecidableEq, Repr

/-- The configurable fields of a run, from `Configuration` in
`configuration.py` (fields relevant to the orchestrator). -/
structure Configuration where
  max_web_research_loops : Int
  local_llm : PyStr
  search_api : SearchAPI
  fetch_full_page : Bool
  ollama_base_url : PyStr
  strip_thinking_tokens : Bool
  use_tool_calling : Bool
deriving DecidableEq, Repr

/-- The default `Configuration` values declared in `configuration.py`. -/
def defaultConfiguration : Configuration where
  max_web_research_loops := 3
  local_llm := ("llama3.2").toList
  search_api := SearchAPI.duckduckgo
  fetch_full_page := true
  ollama_base_url := ("http://localhost:11434/").toList
  strip_thinking_tokens := true
  use_tool_calling := false

/-- Pydantic validation of the `search_api` field
(`configuration.py` lines 29-31): the `Literal` type accepts exactly the
four backend names and raises a `ValidationError` on anything else, at
the moment the `Configuration` is constructed. -/
def parseSearchAPI (s : PyStr) : Except PyStr SearchAPI :=
  if s = ("perplexity").toList then Except.ok SearchAPI.perplexity
  else if s = ("tavily").toList then Except.ok SearchAPI.tavily
  else if s = ("duckduckgo").toList then Except.ok SearchAPI.duckduckgo
  else if s = ("searxng").toList then Except.ok SearchAPI.searxng
  else Except.error (("Unsupported search API: ").toList ++ s)

/-- The orchestrator state, from `SummaryState` in `state.py` (its field
names, types and defaults are exercised by `tests/unit/test_state.py`). -/
structure SummaryState where
  research_topic : Option PyStr
  search_query : Option PyStr
  web_research_results : List PyStr
  sources_gathered : List PyStr
  research_loop_count : Int
  running_summary : Option PyStr
deriving DecidableEq, Repr

/-- The initial state of a run: the topic from the request, every other
field at its default (`tests/unit/test_state.py` records the defaults). -/
def initState (topic : PyStr) : SummaryState where
  research_topic := some topic
  search_query := none
  web_research_results := []
  sources_gathered := []
  research_loop_count := 0
  running_summary := none

/-- The state update returned by the `web_research` node
(`graph.py` lines 248-260). -/
structure WebResearchUpdate where
  sources_gathered : List PyStr
  research_loop_count : Int
  web_research_results : List PyStr
deriving DecidableEq, Repr

/-- Outcome of one backend dispatch: on success, the pair
`(format_sources(search_results), search_str)` computed by the chosen
branch of the `try` block; on failure, the message of the exception the
branch raised.  The backend calls and the two formatting helpers live in
`utils.py` (external to the orchestrator), so they are abstracted as
this oracle. -/
abbrev BackendOracle := SearchAPI → Except PyStr (PyStr × PyStr)

/-- The `web_research` node (`graph.py` lines 180-260): dispatch on the
configured backend inside a `try`; on success return the formatted
sources, the incremented loop count and the formatted results; on any
exception return the sentinel update with the same incremented count.
The `else: raise ValueError` arm (lines 245-246) is unreachable for a
validated `Configuration`, whose `search_api` is one of the four
`SearchAPI` values. -/
def web_research (state : SummaryState) (configurable : Configuration)
    (backend : BackendOracle) : WebResearchUpdate :=
  let attempt : Except PyStr (PyStr × PyStr) :=
    match configurable.search_api with
    | SearchAPI.tavily => backend SearchAPI.tavily
    | SearchAPI.perplexity => backend SearchAPI.perplexity
    | SearchAPI.duckduckgo => backend SearchAPI.duckduckgo
    | SearchAPI.searxng => backend SearchAPI.searxng
  match attempt with
  | Except.ok r =>
    { sources_gathered := [r.1]
      research_loop_count := state.research_loop_count + 1
      web_research_results := [r.2] }
  | Except.error e =>
    { sources_gathered := [("Error fetching sources").toList]
      research_loop_count := state.research_loop_count + 1
      web_research_results := [("Search failed: ").toList ++ e] }

/-- Modelled from the spec: `state.py` is not under `src/`; per spec §3
the sequences `research_results` and `gathered_sources` are append-only
(LangGraph list accumulation, also noted by
`tests/unit/test_state.py::test_summary_state_accumulation`), while the
loop counter is overwritten by the node's update. -/
def applyWebResearchUpdate (state : SummaryState) (u : WebResearchUpdate) :
    SummaryState :=
  { state with
    sources_gathered := state.sources_gathered ++ u.sources_gathered
    web_research_results := state.web_research_results ++ u.web_research_results
    research_loop_count := u.research_loop_count }

/-- A sequence of `web_research` executions, one per element of
`backends` (each element is that iteration's backend behaviour), with
the updates merged into the state as LangGraph does. -/
def runWebSteps (state : SummaryState) (configurable : Configuration) :
    List BackendOracle → SummaryState
  | [] => state
  | b :: bs =>
    runWebSteps (applyWebResearchUpdate state (web_research state configurable b))
      configurable bs

/-- The `route_research` routing function (`graph.py` lines 445-465):
continue to `web_research` while the loop count is at most the
configured maximum, else go to `finalize_summary`. -/
def route_research (state : SummaryState) (configurable : Configuration) :
    PyStr :=
  if state.research_loop_count ≤ configurable.max_web_research_loops then
    ("web_research").toList
  else
    ("finalize_summary").toList

/-- Number of `web_research` executions a run performs, following the
graph wiring of `graph.py` lines 482-487: `generate_query` leads
unconditionally into a first `web_research` (which increments the loop
count), and after each iteration `route_research` decides whether
another `web_research` follows. -/
def webResearchIterations (configurable : Configuration) (loop_count : Int) :
    Nat :=
  if h : route_research
      { research_topic := none, search_query := none,
        web_research_results := [], sources_gathered := [],
        research_loop_count := loop_count + 1, running_summary := none }
      configurable = ("web_research").toList then
    1 + webResearchIterations configurable (loop_count + 1)
  else
    1
termination_by (configurable.max_web_research_loops - loop_count).toNat
decreasing_by
  have hle : loop_count + 1 ≤ configurable.max_web_research_loops := by
    by_contra hgt
    rw [route_research, if_neg hgt] at h
    exact absurd h (by decide)
  omega

/-- The `summarize_sources` node (`graph.py` lines 263-323).  The whole
body sits in one `try`: indexing `web_research_results[-1]` (an
`IndexError` when the list is empty), the model invocation (given here
as `modelCall`, the content returned by `llm.invoke` or the message of
the exception it raised) and the `strip_thinking_tokens` cleanup (a pure
`utils.py` helper, passed as `stripTokens`).  Any exception reaches the
single handler, which returns `state.running_summary or "Summary
generation failed"`.  The update value is always a string. -/
def summarize_sources (state : SummaryState)
    (modelCall : Except PyStr PyStr) (stripTokens : PyStr → PyStr)
    (configurable : Configuration) : PyStr :=
  match state.web_research_results.getLast? with
  | none => pyOrStr state.running_summary (("Summary generation failed").toList)
  | some _ =>
    match modelCall with
    | Except.error _ =>
      pyOrStr state.running_summary (("Summary generation failed").toList)
    | Except.ok content =>
      if configurable.strip_thinking_tokens then stripTokens content
      else content

/-- One step of the deduplication loop of `finalize_summary`
(`graph.py` lines 403-409): the pair is `(seen_sources,
unique_sources)`; a line is kept when its stripped text is non-empty and
it has not been seen (by exact, unstripped text). -/
def dedupStep (st : List PyStr × List PyStr) (line : PyStr) :
    List PyStr × List PyStr :=
  if pyStrip line ≠ [] ∧ line ∉ st.1 then (line :: st.1, st.2 ++ [line])
  else st

/-- The nested deduplication loops of `finalize_summary`
(`graph.py` lines 399-409): iterate over `sources_gathered`, split each
entry at newlines, and run `dedupStep` with one global seen-set; the
result is the final `unique_sources` list. -/
def finalizeDedup (sources_gathered : List PyStr) : List PyStr :=
  (sources_gathered.foldl
    (fun st source => (pySplitNl source).foldl dedupStep st) ([], [])).2

/-- Global first-seen deduplication of the non-blank lines, written
directly from the spec's words (§4.4 step 1: keep only non-blank lines;
deduplicate by exact line text, preserving first-seen order across all
entries, with a single global ordered seen-set). -/
def specDedup (seen : List PyStr) : List PyStr → List PyStr
  | [] => []
  | line :: rest =>
    if pyStrip line ≠ [] ∧ line ∉ seen then
      line :: specDedup (line :: seen) rest
    else
      specDedup seen rest

/-- All lines of all entries, in order. -/
def allLines (sources_gathered : List PyStr) : List PyStr :=
  (sources_gathered.map pySplitNl).flatten

/-- The URL-extraction loop of `finalize_summary`
(`graph.py` lines 411-416): keep lines whose stripped text starts with
`http`, appending the stripped text. -/
def extractUrls : List PyStr → List PyStr
  | [] => []
  | line :: rest =>
    if pyStartsWith (pyStrip line) (("http").toList) then
      pyStrip line :: extractUrls rest
    else
      extractUrls rest

/-- The state update returned by `finalize_summary`
(`graph.py` lines 437-442). -/
structure FinalizeUpdate where
  running_summary : PyStr
  success : Bool
  sources : List PyStr
  error_message : Option PyStr
deriving DecidableEq, Repr

/-- The `finalize_summary` node (`graph.py` lines 384-442): deduplicate
the gathered source lines, extract the URLs, compute the success verdict
and error message, and format the final summary text. -/
def finalize_summary (state : SummaryState) : FinalizeUpdate :=
  let unique_sources := finalizeDedup state.sources_gathered
  let source_urls := extractUrls unique_sources
  let has_summary : Bool :=
    match state.running_summary with
    | none => false
    | some s => !s.isEmpty && decide (50 < s.length)
  let has_sources : Bool := decide (0 < source_urls.length)
  let success := has_summary && has_sources
  let error_message : Option PyStr :=
    if success then none
    else if !has_summary then some (("Failed to generate summary").toList)
    else if !has_sources then some (("No sources found").toList)
    else none
  let all_sources := List.intercalate ['\n'] unique_sources
  { running_summary :=
      ("## Summary\n").toList ++ fString state.running_summary ++
        ("\n\n ### Sources:\n").toList ++ all_sources
    success := success
    sources := source_urls
    error_message := error_message }

/-- A Python/JSON value, as produced by `json.loads` or carried in a
parsed tool call's arguments; `jnull` doubles as Python `None`. -/
inductive PyJson where
  | jnull
  | jbool (b : Bool)
  | jnum (n : Int)
  | jstr (s : PyStr)
  | jarr (xs : List PyJson)
  | jobj (fields : List (PyStr × PyJson))

/-- Python truthiness of a JSON value (`if not search_query`). -/
def pyTruthy : PyJson → Bool
  | PyJson.jnull => false
  | PyJson.jbool b => b
  | PyJson.jnum n => decide (n ≠ 0)
  | PyJson.jstr s => !s.isEmpty
  | PyJson.jarr xs => !xs.isEmpty
  | PyJson.jobj fields => !fields.isEmpty

/-- A Python dict, as an association list keyed by strings. -/
abbrev PyDict := List (PyStr × PyJson)

/-- Python `d[k]` semantics: the first binding of `k`, or `none`
(a `KeyError`) when absent. -/
def dictLookup (d : PyDict) (k : PyStr) : Option PyJson :=
  match d with
  | [] => none
  | (k', v) :: rest => if k' = k then some v else dictLookup rest k

/-- Python `d.get(k)` semantics: the first binding of `k`, defaulting to
`None` when the key is absent (never raising). -/
def pyGet (d : PyDict) (k : PyStr) : PyJson :=
  (dictLookup d k).getD PyJson.jnull

/-- A model response, as the extractor reads it: the `tool_calls` list
(each tool call is a dict carrying an `args` entry) and the text
`content`. -/
structure ModelResponse where
  tool_calls : List PyDict
  content : PyStr

/-- Result of one node execution: either the state-update value it
returns, or the message of an exception that escaped the node. -/
inductive StepResult (α : Type) where
  | update (val : α)
  | raised (exc : PyStr)

/-- The `generate_search_query_with_structured_output` helper
(`graph.py` lines 43-94).  `modelCall` is the outcome of `llm.invoke`
(which is outside any `try`, so its exception propagates); `parseJson`
is `json.loads` (stdlib), returning `none` for a `JSONDecodeError`;
`stripTokens` is the `strip_thinking_tokens` cleanup from `utils.py`.
In tool mode: an empty `tool_calls` list gives the fallback; a missing
`args` key is a `KeyError`, caught and turned into the fallback; when
`args` is a dict, the result is `tool_data.get(field)` returned as-is
(`None` when the field is absent); `.get` on a non-dict raises an
uncaught `AttributeError`.  In JSON mode: a parse failure gives the
fallback (after the optional cleanup of the text, which is then
discarded); a falsy or missing field gives the fallback; `.get` on a
parsed non-dict raises an uncaught `AttributeError`. -/
def generate_search_query_with_structured_output
    (configurable : Configuration) (modelCall : Except PyStr ModelResponse)
    (parseJson : PyStr → Option PyJson) (stripTokens : PyStr → PyStr)
    (fallback_query : PyStr) (tool_query_field : PyStr)
    (json_query_field : PyStr) : StepResult PyJson :=
  match modelCall with
  | Except.error e => StepResult.raised e
  | Except.ok result =>
    if configurable.use_tool_calling then
      match result.tool_calls with
      | [] => StepResult.update (PyJson.jstr fallback_query)
      | tc :: _ =>
        match dictLookup tc (("args").toList) with
        | none => StepResult.update (PyJson.jstr fallback_query)
        | some (PyJson.jobj tool_data) =>
          StepResult.update (pyGet tool_data tool_query_field)
        | some _ => StepResult.raised (("AttributeError").toList)
    else
      match parseJson result.content with
      | none =>
        let _cleaned :=
          if configurable.strip_thinking_tokens then stripTokens result.content
          else result.content
        StepResult.update (PyJson.jstr fallback_query)
      | some (PyJson.jobj parsed_json) =>
        let search_query := pyGet parsed_json json_query_field
        if pyTruthy search_query then StepResult.update search_query
        else StepResult.update (PyJson.jstr fallback_query)
      | some _ => StepResult.raised (("AttributeError").toList)

/-- The `generate_query` node (`graph.py` lines 124-177): delegates to
the structured-output helper with fallback
`f"Tell me more about {state.research_topic}"` and query field
`query`. -/
def generate_query (state : SummaryState) (configurable : Configuration)
    (modelCall : Except PyStr ModelResponse)
    (parseJson : PyStr → Option PyJson) (stripTokens : PyStr → PyStr) :
    StepResult PyJson :=
  generate_search_query_with_structured_output configurable modelCall
    parseJson stripTokens
    (("Tell me more about ").toList ++ fString state.research_topic)
    (("query").toList) (("query").toList)

/-- The `reflect_on_summary` node (`graph.py` lines 326-381): delegates
to the structured-output helper with the same fallback and query field
`follow_up_query`. -/
def reflect_on_summary (state : SummaryState) (configurable : Configuration)
    (modelCall : Except PyStr ModelResponse)
    (parseJson : PyStr → Option PyJson) (stripTokens : PyStr → PyStr) :
    StepResult PyJson :=
  generate_search_query_with_structured_output configurable modelCall
    parseJson stripTokens
    (("Tell me more about ").toList ++ fString state.research_topic)
    (("follow_up_query").toList) (("follow_up_query").toList)

/-- A summary text longer than fifty characters, for concrete checks. -/
def longSummary : PyStr :=
  ("This summary is certainly longer than fifty characters, yes.").toList

/-- A concrete state with a long summary and one URL source. -/
def stSuccess : SummaryState :=
  { initState (("quantum computing").toList) with
    running_summary := some longSummary
    sources_gathered := [("http://a").toList] }

/-- A concrete state whose single gathered source holds two distinct
lines that strip to the same URL. -/
def stDupUrl : SummaryState :=
  { initState (("quantum computing").toList) with
    running_summary := some longSummary
    sources_gathered := [("http://a\nhttp://a ").toList] }

/-- The default configuration with tool calling switched on. -/
def cfgTool : Configuration :=
  { defaultConfiguration with use_tool_calling := true }

/-- A model response carrying one tool call whose `args` dict is empty,
so the requested query field is absent. -/
def respArgsEmpty : ModelResponse :=
  { tool_calls := [[((("args").toList), PyJson.jobj [])]], content := [] }

/-- A model response with no tool calls and unparseable content. -/
def respPlain : ModelResponse :=
  { tool_calls := [], content := ("not json").toList }

lemma foldl_dedupStep_snd (lines : List PyStr) :
    ∀ (seen acc : List PyStr),
      (lines.foldl dedupStep (seen, acc)).2 = acc ++ specDedup seen lines := by
  induction lines with
  | nil => intro seen acc; simp [specDedup]
  | cons line rest ih =>
    intro seen acc
    simp only [List.foldl_cons]
    by_cases h : pyStrip line ≠ [] ∧ line ∉ seen
    · rw [show dedupStep (seen, acc) line = (line :: seen, acc ++ [line]) from by
        simp [dedupStep, h]]
      rw [ih (line :: seen) (acc ++ [line]), specDedup, if_pos h]
      simp
    · rw [show dedupStep (seen, acc) line = (seen, acc) from by
        simp [dedupStep, h]]
      rw [ih seen acc, specDedup, if_neg h]

lemma foldl_over_sources (sources : List PyStr) :
    ∀ (init : List PyStr × List PyStr),
      sources.foldl (fun st source => (pySplitNl source).foldl dedupStep st) init
        = (allLines sources).foldl dedupStep init := by
  induction sources with
  | nil => intro init; simp [allLines]
  | cons s rest ih =>
    intro init
    simp [allLines, List.foldl_append, ih]

lemma finalizeDedup_eq_specDedup (sources : List PyStr) :
    finalizeDedup sources = specDedup [] (allLines sources) := by
  unfold finalizeDedup
  rw [foldl_over_sources, foldl_dedupStep_snd]
  simp

lemma specDedup_mem {x : PyStr} :
    ∀ (lines seen : List PyStr), x ∈ specDedup seen lines →
      pyStrip x ≠ [] ∧ x ∉ seen ∧ x ∈ lines := by
  intro lines
  induction lines with
  | nil => intro seen hx; simp [specDedup] at hx
  | cons line rest ih =>
    intro seen hx
    by_cases h : pyStrip line ≠ [] ∧ line ∉ seen
    · rw [specDedup, if_pos h] at hx
      rcases List.mem_cons.mp hx with hx | hx
      · subst hx; exact ⟨h.1, h.2, List.mem_cons_self _ _⟩
      · rcases ih (line :: seen) hx with ⟨h1, h2, h3⟩
        exact ⟨h1, fun hs => h2 (List.mem_cons_of_mem _ hs),
          List.mem_cons_of_mem _ h3⟩
    · rw [specDedup, if_neg h] at hx
      rcases ih seen hx with ⟨h1, h2, h3⟩
      exact ⟨h1, h2, List.mem_cons_of_mem _ h3⟩

lemma specDedup_nodup : ∀ (lines seen : List PyStr), (specDedup seen lines).Nodup := by
  intro lines
  induction lines with
  | nil => intro seen; simp [specDedup]
  | cons line rest ih =>
    intro seen
    by_cases h : pyStrip line ≠ [] ∧ line ∉ seen
    · rw [specDedup, if_pos h]
      refine List.nodup_cons.mpr ⟨fun hmem => ?_, ih (line :: seen)⟩
      exact (specDedup_mem rest (line :: seen) hmem).2.1 (List.mem_cons_self _ _)
    · rw [specDedup, if_neg h]
      exact ih seen

lemma specDedup_fixpoint :
    ∀ (lines seen : List PyStr),
      (∀ x ∈ lines, pyStrip x ≠ []) → lines.Nodup →
      (∀ x ∈ lines, x ∉ seen) → specDedup seen lines = lines := by
  intro lines
  induction lines with
  | nil => intro seen _ _ _; rfl
  | cons line rest ih =>
    intro seen hstrip hnodup hseen
    have hcond : pyStrip line ≠ [] ∧ line ∉ seen :=
      ⟨hstrip line (List.mem_cons_self _ _), hseen line (List.mem_cons_self _ _)⟩
    rw [specDedup, if_pos hcond]
    have hrest : specDedup (line :: seen) rest = rest := by
      refine ih (line :: seen) (fun x hx => hstrip x (List.mem_cons_of_mem _ hx))
        (List.nodup_cons.mp hnodup).2 (fun x hx hmem => ?_)
      rcases List.mem_cons.mp hmem with heq | hmem'
      · exact (List.nodup_cons.mp hnodup).1 (heq ▸ hx)
      · exact hseen x (List.mem_cons_of_mem _ hx) hmem'
    rw [hrest]

lemma pySplitNl_no_newline :
    ∀ (s x : PyStr), x ∈ pySplitNl s → '\n' ∉ x := by
  intro s
  induction s with
  | nil =>
    intro x hx
    simp [pySplitNl] at hx
    simp [hx]
  | cons c cs ih =>
    intro x hx
    by_cases hc : c = '\n'
    · rw [pySplitNl, if_pos hc] at hx
      rcases List.mem_cons.mp hx with hx | hx
      · simp [hx]
      · exact ih x hx
    · rw [pySplitNl, if_neg hc] at hx
      cases hcs : pySplitNl cs with
      | nil =>
        rw [hcs] at hx
        simp at hx
        subst hx
        intro hmem
        simp at hmem
        exact hc hmem.symm
      | cons p ps =>
        rw [hcs] at hx
        rcases List.mem_cons.mp hx with hx | hx
        · subst hx
          intro hmem
          rcases List.mem_cons.mp hmem with heq | hmem'
          · exact hc heq.symm
          · exact ih p (by rw [hcs]; exact List.mem_cons_self _ _) hmem'
        · exact ih x (by rw [hcs]; exact List.mem_cons_of_mem _ hx)

lemma pySplitNl_of_no_newline :
    ∀ (x : PyStr), '\n' ∉ x → pySplitNl x = [x] := by
  intro x
  induction x with
  | nil => intro _; rfl
  | cons c cs ih =>
    intro h
    have hc : ¬ c = '\n' := fun hc => h (by simp [hc])
    have hcs : pySplitNl cs = [cs] := ih (fun hmem => h (List.mem_cons_of_mem _ hmem))
    rw [pySplitNl, if_neg hc, hcs]

lemma allLines_mem_no_newline :
    ∀ (sources : List PyStr) (x : PyStr), x ∈ allLines sources → '\n' ∉ x := by
  intro sources x hx
  have hex : ∃ s ∈ sources, x ∈ pySplitNl s := by simpa [allLines] using hx
  rcases hex with ⟨s, _, hxs⟩
  exact pySplitNl_no_newline s x hxs

lemma allLines_of_no_newline :
    ∀ (l : List PyStr), (∀ x ∈ l, '\n' ∉ x) → allLines l = l := by
  intro l
  induction l with
  | nil => intro _; rfl
  | cons x rest ih =>
    intro h
    have hx : pySplitNl x = [x] := pySplitNl_of_no_newline x (h x (List.mem_cons_self _ _))
    have hrest : allLines rest = rest := ih (fun y hy => h y (List.mem_cons_of_mem _ hy))
    simp [allLines, hx] at hrest ⊢
    exact hrest

lemma finalizeDedup_idempotent (sources : List PyStr) :
    finalizeDedup (finalizeDedup sources) = finalizeDedup sources := by
  rw [finalizeDedup_eq_specDedup sources, finalizeDedup_eq_specDedup]
  have hlines : allLines (specDedup [] (allLines sources)) = specDedup [] (allLines sources) := by
    refine allLines_of_no_newline _ (fun x hx => ?_)
    exact allLines_mem_no_newline sources x (specDedup_mem _ _ hx).2.2
  rw [hlines]
  refine specDedup_fixpoint _ [] (fun x hx => (specDedup_mem _ _ hx).1)
    (specDedup_nodup _ _) (fun x _ hmem => by simp at hmem)

lemma extractUrls_eq_filter_map :
    ∀ (l : List PyStr),
      extractUrls l =
        (l.filter (fun line => pyStartsWith (pyStrip line) (("http").toList))).map pyStrip := by
  intro l
  induction l with
  | nil => rfl
  | cons line rest ih =>
    by_cases h : pyStartsWith (pyStrip line) (("http").toList)
    · rw [extractUrls, if_pos h, List.filter_cons_of_pos (by simpa using h), List.map_cons, ih]
    · rw [extractUrls, if_neg h, List.filter_cons_of_neg (by simpa using h), ih]

lemma web_research_shape (state : SummaryState) (configurable : Configuration)
    (backend : BackendOracle) :
    ∃ s r, web_research state configurable backend =
      { sources_gathered := [s]
        research_loop_count := state.research_loop_count + 1
        web_research_results := [r] } := by
  unfold web_research
  cases configurable.search_api
  case perplexity =>
    cases h : backend SearchAPI.perplexity with
    | ok r => exact ⟨r.1, r.2, by simp [h]⟩
    | error e =>
      exact ⟨("Error fetching sources").toList, ("Search failed: ").toList ++ e,
        by simp [h]⟩
  case tavily =>
    cases h : backend SearchAPI.tavily with
    | ok r => exact ⟨r.1, r.2, by simp [h]⟩
    | error e =>
      exact ⟨("Error fetching sources").toList, ("Search failed: ").toList ++ e,
        by simp [h]⟩
  case duckduckgo =>
    cases h : backend SearchAPI.duckduckgo with
    | ok r => exact ⟨r.1, r.2, by simp [h]⟩
    | error e =>
      exact ⟨("Error fetching sources").toList, ("Search failed: ").toList ++ e,
        by simp [h]⟩
  case searxng =>
    cases h : backend SearchAPI.searxng with
    | ok r => exact ⟨r.1, r.2, by simp [h]⟩
    | error e =>
      exact ⟨("Error fetching sources").toList, ("Search failed: ").toList ++ e,
        by simp [h]⟩

lemma runWebSteps_counts :
    ∀ (backends : List BackendOracle) (state : SummaryState)
      (configurable : Configuration),
      (runWebSteps state configurable backends).research_loop_count
          = state.research_loop_count + backends.length ∧
        (runWebSteps state configurable backends).web_research_results.length
          = state.web_research_results.length + backends.length ∧
        (runWebSteps state configurable backends).sources_gathered.length
          = state.sources_gathered.length + backends.length := by
  intro backends
  induction backends with
  | nil => intro state configurable; simp [runWebSteps]
  | cons b bs ih =>
    intro state configurable
    rcases web_research_shape state configurable b with ⟨s, r, hb⟩
    rw [runWebSteps, hb]
    rcases ih (applyWebResearchUpdate state
      { sources_gathered := [s]
        research_loop_count := state.research_loop_count + 1
        web_research_results := [r] }) configurable with ⟨h1, h2, h3⟩
    rw [h1, h2, h3]
    simp [applyWebResearchUpdate]
    omega

lemma route_research_eq_web_iff (state : SummaryState)
    (configurable : Configuration) :
    route_research state configurable = ("web_research").toList ↔
      state.research_loop_count ≤ configurable.max_web_research_loops := by
  unfold route_research
  by_cases h : state.research_loop_count ≤ configurable.max_web_research_loops
  · rw [if_pos h]
    exact ⟨fun _ => h, fun _ => rfl⟩
  · rw [if_neg h]
    exact ⟨fun heq => absurd heq (by decide), fun hle => absurd hle h⟩

lemma route_research_eq_finalize_iff (state : SummaryState)
    (configurable : Configuration) :
    route_research state configurable = ("finalize_summary").toList ↔
      ¬ state.research_loop_count ≤ configurable.max_web_research_loops := by
  unfold route_research
  by_cases h : state.research_loop_count ≤ configurable.max_web_research_loops
  · rw [if_pos h]
    exact ⟨fun heq => absurd heq (by decide), fun hnle => absurd h hnle⟩
  · rw [if_neg h]
    exact ⟨fun _ => h, fun _ => rfl⟩

lemma webResearchIterations_eq :
    ∀ (n : Nat) (configurable : Configuration) (loop_count : Int),
      configurable.max_web_research_loops - loop_count = n →
      loop_count ≤ configurable.max_web_research_loops →
      webResearchIterations configurable loop_count = n + 1 := by
  intro n
  induction n with
  | zero =>
    intro configurable loop_count hn _
    rw [webResearchIterations, dif_neg]
    intro hroute
    have hle := (route_research_eq_web_iff _ _).mp hroute
    simp at hle
    omega
  | succ m ih =>
    intro configurable loop_count hn _
    rw [webResearchIterations, dif_pos]
    · rw [ih configurable (loop_count + 1) (by omega) (by omega)]
      omega
    · refine (route_research_eq_web_iff _ _).mpr ?_
      simp
      omega

lemma web_research_error_sentinel (state : SummaryState)
    (configurable : Configuration) (backend : BackendOracle) (e : PyStr) :
    backend configurable.search_api = Except.error e →
    web_research state configurable backend =
      { sources_gathered := [("Error fetching sources").toList]
        research_loop_count := state.research_loop_count + 1
        web_research_results := [("Search failed: ").toList ++ e] } := by
  intro h
  unfold web_research
  cases hapi : configurable.search_api <;> rw [hapi] at h <;> simp [h]

/-- C1 (Monotonic progress): one execution of the `web_research` step,
merged into the state, appends exactly one entry to `sources_gathered`,
appends exactly one entry to `web_research_results` and increments
`research_loop_count` by exactly 1 — whichever branch (backend success
or backend error) produced the update — and therefore after `n` steps
from the initial state the loop count and both list lengths equal `n`. -/
theorem web_research_monotonic_progress :
    (∀ (state : SummaryState) (configurable : Configuration)
      (backend : BackendOracle),
      ∃ s r,
        (applyWebResearchUpdate state
            (web_research state configurable backend)).sources_gathered
            = state.sources_gathered ++ [s] ∧
          (applyWebResearchUpdate state
              (web_research state configurable backend)).web_research_results
            = state.web_research_results ++ [r] ∧
          (applyWebResearchUpdate state
              (web_research state configurable backend)).research_loop_count
            = state.research_loop_count + 1) ∧
    (∀ (topic : PyStr) (configurable : Configuration)
      (backends : List BackendOracle),
      (runWebSteps (initState topic) configurable backends).research_loop_count
          = backends.length ∧
        (runWebSteps (initState topic) configurable
            backends).web_research_results.length = backends.length ∧
        (runWebSteps (initState topic) configurable
            backends).sources_gathered.length = backends.length) := by
  constructor
  · intro state configurable backend
    rcases web_research_shape state configurable backend with ⟨s, r, hb⟩
    exact ⟨s, r, by rw [hb]; simp [applyWebResearchUpdate]⟩
  · intro topic configurable backends
    rcases runWebSteps_counts backends (initState topic) configurable with
      ⟨h1, h2, h3⟩
    rw [h1, h2, h3]
    simp [initState]

/-- C2 (Routing rule): `route_research` returns `web_research` iff the
loop count is at most the configured maximum, returns
`finalize_summary` otherwise, and consequently a run with a
non-negative maximum `max` performs `max + 1` web-research iterations. -/
theorem route_research_loop_bound :
    ∀ (state : SummaryState) (configurable : Configuration),
      (route_research state configurable = ("web_research").toList ↔
        state.research_loop_count ≤ configurable.max_web_research_loops) ∧
      (route_research state configurable = ("finalize_summary").toList ↔
        ¬ state.research_loop_count ≤ configurable.max_web_research_loops) ∧
      (0 ≤ configurable.max_web_research_loops →
        (webResearchIterations configurable 0 : Int)
          = configurable.max_web_research_loops + 1) := by
  intro state configurable
  refine ⟨route_research_eq_web_iff _ _, route_research_eq_finalize_iff _ _,
    fun h0 => ?_⟩
  rw [webResearchIterations_eq configurable.max_web_research_loops.toNat
    configurable 0 (by omega) h0]
  push_cast
  omega

/-- Witness for C2 at the default configuration (`max = 3`): the router
continues from the initial state, and the run performs 4 iterations. -/
theorem route_research_loop_bound_witness :
    route_research (initState []) defaultConfiguration
        = ("web_research").toList ∧
      (webResearchIterations defaultConfiguration 0 : Int) = 3 + 1 := by
  refine ⟨(route_research_loop_bound (initState []) defaultConfiguration).1.mpr
    (by decide), ?_⟩
  rw [(route_research_loop_bound (initState []) defaultConfiguration).2.2
    (by decide)]
  rfl

/-- C5 (Finalizer deduplication): the nested dedup loops of
`finalize_summary` compute exactly the global first-seen deduplication
of the non-blank lines of all entries, and the dedup step is idempotent:
applied to its own output it returns the output unchanged. -/
theorem finalize_dedup_global_first_seen :
    (∀ sources_gathered : List PyStr,
      finalizeDedup sources_gathered
        = specDedup [] (allLines sources_gathered)) ∧
    (∀ sources_gathered : List PyStr,
      finalizeDedup (finalizeDedup sources_gathered)
        = finalizeDedup sources_gathered) :=
  ⟨finalizeDedup_eq_specDedup, finalizeDedup_idempotent⟩

/-- Counterexample to C6: two distinct gathered lines (`http://a` and
`http://a␠`) survive deduplication yet strip to the same URL, so the
final `sources` list contains the same URL twice — it is not a sequence
of pairwise-distinct strings as claimed. -/
theorem finalize_sources_unique_counterexample :
    (finalize_summary stDupUrl).sources
        = [("http://a").toList, ("http://a").toList] ∧
      ¬ (finalize_summary stDupUrl).sources.Nodup := by
  constructor
  · rfl
  · decide

/-- C6 as amended: the `sources` list consists of the stripped text of
the deduplicated lines whose stripped text starts with `http`, in
first-seen order (not necessarily pairwise distinct, since distinct
lines may strip to the same URL); all deduplicated lines, joined by
newlines, appear in the Sources section of the formatted summary. -/
theorem finalize_sources_amended :
    ∀ state : SummaryState,
      (finalize_summary state).sources
          = ((finalizeDedup state.sources_gathered).filter
              (fun line => pyStartsWith (pyStrip line) (("http").toList))).map
              pyStrip ∧
        (finalize_summary state).running_summary
          = ("## Summary\n").toList ++ fString state.running_summary ++
              ("\n\n ### Sources:\n").toList ++
              List.intercalate ['\n'] (finalizeDedup state.sources_gathered) := by
  intro state
  exact ⟨extractUrls_eq_filter_map _, rfl⟩

/-- C3 (Finalizer verdict): `success` holds exactly when the running
summary is non-null with length above 50 and the extracted URL list is
non-empty; `error_message` is `None` on success, `Failed to generate
summary` whenever the summary condition fails (taking priority), and
`No sources found` when only the sources condition fails. -/
theorem finalize_summary_verdict :
    ∀ state : SummaryState,
      ((finalize_summary state).success = true ↔
        (∃ t, state.running_summary = some t ∧ 50 < t.length) ∧
          (finalize_summary state).sources ≠ []) ∧
      ((finalize_summary state).success = true →
        (finalize_summary state).error_message = none) ∧
      ((¬ ∃ t, state.running_summary = some t ∧ 50 < t.length) →
        (finalize_summary state).error_message
          = some (("Failed to generate summary").toList)) ∧
      ((∃ t, state.running_summary = some t ∧ 50 < t.length) →
        (finalize_summary state).sources = [] →
        (finalize_summary state).error_message
          = some (("No sources found").toList)) := by
  intro state
  cases hrs : state.running_summary with
  | none =>
    refine ⟨?_, ?_, ?_, ?_⟩
    · simp [finalize_summary, hrs]
    · simp [finalize_summary, hrs]
    · intro _
      simp [finalize_summary, hrs]
    · rintro ⟨t, ht, _⟩ _
      simp [hrs] at ht
  | some s =>
    by_cases hlen : 50 < s.length
    · have hne : ¬ s.isEmpty := by
        cases s with
        | nil => simp at hlen
        | cons c cs => simp
      by_cases hurl : extractUrls (finalizeDedup state.sources_gathered) = []
      · refine ⟨?_, ?_, ?_, ?_⟩
        · simp [finalize_summary, hrs, hne, hlen, hurl]
        · simp [finalize_summary, hrs, hne, hlen, hurl]
        · intro hno
          exact absurd ⟨s, rfl, hlen⟩ hno
        · intro _ _
          simp [finalize_summary, hrs, hne, hlen, hurl]
      · refine ⟨?_, ?_, ?_, ?_⟩
        · constructor
          · intro _
            exact ⟨⟨s, rfl, hlen⟩, by simpa [finalize_summary] using hurl⟩
          · intro _
            have hpos : 0 < (extractUrls (finalizeDedup state.sources_gathered)).length :=
              List.length_pos.mpr hurl
            simp [finalize_summary, hrs, hne, hlen, hpos]
        · intro _
          simp [finalize_summary, hrs, hne, hlen, hurl]
        · intro hno
          exact absurd ⟨s, rfl, hlen⟩ hno
        · intro _ hempty
          exact absurd (by simpa [finalize_summary] using hempty) hurl
    · refine ⟨?_, ?_, ?_, ?_⟩
      · simp [finalize_summary, hrs, hlen]
      · simp [finalize_summary, hrs, hlen]
      · intro _
        simp [finalize_summary, hrs, hlen]
      · rintro ⟨t, ht, hlt⟩ _
        injection ht with ht
        exact absurd (ht ▸ hlt) hlen

/-- Witness for C3: on a state with a 61-character summary and one URL,
success holds and no error is reported; on the empty initial state the
summary-failure message is reported. -/
theorem finalize_summary_verdict_witness :
    (finalize_summary stSuccess).error_message = none ∧
      (finalize_summary (initState [])).error_message
        = some (("Failed to generate summary").toList) := by
  constructor
  · exact (finalize_summary_verdict stSuccess).2.1 (by decide)
  · exact (finalize_summary_verdict (initState [])).2.2.1 (by simp [initState])

/-- Counterexample to C4: in tool-calling mode, a tool call whose `args`
dict lacks the requested `query` field makes the extractor return
Python `None` (`dict.get` never raises the caught `KeyError`), not the
fallback query the claim promises. -/
theorem tool_call_fallback_counterexample :
    generate_search_query_with_structured_output cfgTool
        (Except.ok respArgsEmpty) (fun _ => none) id
        (("Tell me more about LLMs").toList) (("query").toList)
        (("query").toList)
        = StepResult.update PyJson.jnull ∧
      StepResult.update PyJson.jnull
        ≠ StepResult.update
            (PyJson.jstr (("Tell me more about LLMs").toList)) := by
  constructor
  · rfl
  · simp

/-- C4 as amended: in tool-calling mode the extractor returns the
fallback when the model issues no tool call or when the tool call has no
`args` entry (the caught `KeyError`); but when `args` is a dict, it
returns `tool_data.get(field)` as-is, which is `None` — not the
fallback — when the requested field is absent. -/
theorem tool_call_fallback_amended :
    ∀ (configurable : Configuration) (result : ModelResponse)
      (parseJson : PyStr → Option PyJson) (stripTokens : PyStr → PyStr)
      (fallback_query tool_query_field json_query_field : PyStr),
      configurable.use_tool_calling = true →
      ((result.tool_calls = [] →
        generate_search_query_with_structured_output configurable
            (Except.ok result) parseJson stripTokens fallback_query
            tool_query_field json_query_field
          = StepResult.update (PyJson.jstr fallback_query)) ∧
      (∀ tc rest, result.tool_calls = tc :: rest →
        dictLookup tc (("args").toList) = none →
        generate_search_query_with_structured_output configurable
            (Except.ok result) parseJson stripTokens fallback_query
            tool_query_field json_query_field
          = StepResult.update (PyJson.jstr fallback_query)) ∧
      (∀ tc rest tool_data, result.tool_calls = tc :: rest →
        dictLookup tc (("args").toList) = some (PyJson.jobj tool_data) →
        generate_search_query_with_structured_output configurable
            (Except.ok result) parseJson stripTokens fallback_query
            tool_query_field json_query_field
          = StepResult.update (pyGet tool_data tool_query_field))) := by
  intro c r pj strip fb tf jf htool
  refine ⟨?_, ?_, ?_⟩
  · intro h0
    simp [generate_search_query_with_structured_output, htool, h0]
  · intro tc rest hcons hargs
    have hargs' : dictLookup tc (['a', 'r', 'g', 's']) = none := hargs
    simp [generate_search_query_with_structured_output, htool, hcons, hargs']
  · intro tc rest d hcons hargs
    have hargs' : dictLookup tc (['a', 'r', 'g', 's'])
        = some (PyJson.jobj d) := hargs
    simp [generate_search_query_with_structured_output, htool, hcons, hargs']

/-- Witness for the amended C4: with no tool calls the fallback is
returned, and with an empty `args` dict the field value `None` is
returned. -/
theorem tool_call_fallback_amended_witness :
    generate_search_query_with_structured_output cfgTool
        (Except.ok respPlain) (fun _ => none) id (("fb").toList)
        (("query").toList) (("query").toList)
        = StepResult.update (PyJson.jstr (("fb").toList)) ∧
      generate_search_query_with_structured_output cfgTool
        (Except.ok respArgsEmpty) (fun _ => none) id (("fb").toList)
        (("query").toList) (("query").toList)
        = StepResult.update (pyGet [] (("query").toList)) := by
  constructor
  · exact (tool_call_fallback_amended cfgTool respPlain (fun _ => none) id
      (("fb").toList) (("query").toList) (("query").toList) rfl).1 rfl
  · exact (tool_call_fallback_amended cfgTool respArgsEmpty (fun _ => none) id
      (("fb").toList) (("query").toList) (("query").toList) rfl).2.2
      [((("args").toList), PyJson.jobj [])] [] [] rfl rfl

/-- C7 (JSON-mode fallback determinism): in JSON mode, when the model
content does not parse as JSON the `generate_query` extractor returns
exactly the string `Tell me more about <topic>`, never the raw or
cleaned model text; the same fallback is returned when parsing yields an
object whose `query` field is missing or empty (falsy). -/
theorem json_mode_fallback_determinism :
    ∀ (topic : PyStr) (state : SummaryState) (configurable : Configuration)
      (result : ModelResponse) (parseJson : PyStr → Option PyJson)
      (stripTokens : PyStr → PyStr),
      configurable.use_tool_calling = false →
      state.research_topic = some topic →
      ((parseJson result.content = none →
        generate_query state configurable (Except.ok result) parseJson
            stripTokens
          = StepResult.update
              (PyJson.jstr ((("Tell me more about ").toList) ++ topic))) ∧
      (∀ parsed_json,
        parseJson result.content = some (PyJson.jobj parsed_json) →
        pyTruthy (pyGet parsed_json (("query").toList)) = false →
        generate_query state configurable (Except.ok result) parseJson
            stripTokens
          = StepResult.update
              (PyJson.jstr ((("Tell me more about ").toList) ++ topic)))) := by
  intro topic st c r pj strip hjson htopic
  constructor
  · intro hparse
    simp [generate_query, generate_search_query_with_structured_output,
      hjson, hparse, htopic, fString]
  · intro d hparse hfalsy
    have hfalsy' : pyTruthy (pyGet d (['q', 'u', 'e', 'r', 'y'])) = false :=
      hfalsy
    simp [generate_query, generate_search_query_with_structured_output,
      hjson, hparse, hfalsy', htopic, fString]

/-- Witness for C7: unparseable content yields exactly the fallback for
the topic `llms`. -/
theorem json_mode_fallback_determinism_witness :
    generate_query (initState (("llms").toList)) defaultConfiguration
        (Except.ok respPlain) (fun _ => none) id
      = StepResult.update
          (PyJson.jstr ((("Tell me more about ").toList) ++ ("llms").toList)) :=
  (json_mode_fallback_determinism (("llms").toList)
    (initState (("llms").toList)) defaultConfiguration respPlain
    (fun _ => none) id rfl rfl).1 rfl

/-- Counterexample to C8: a model-service exception during the
`generate_query` step propagates out of the step (its `llm.invoke` is
outside any `try`), terminating the run early even though the configured
backend (`duckduckgo`) is supported — refuting the claim that no step
other than backend validation raises. -/
theorem no_early_error_counterexample :
    ¬ (∀ (state : SummaryState) (configurable : Configuration)
        (modelCall : Except PyStr ModelResponse)
        (parseJson : PyStr → Option PyJson) (stripTokens : PyStr → PyStr)
        (e : PyStr),
        generate_query state configurable modelCall parseJson stripTokens
          ≠ StepResult.raised e) := by
  intro h
  exact h (initState []) defaultConfiguration
    (Except.error (("connection refused").toList)) (fun _ => none) id
    (("connection refused").toList) rfl

/-- C8 as amended: an unrecognized search-backend selection fails
`Configuration` validation (accepting exactly the four backend names),
which happens before any search dispatch; `web_research` itself never
raises, converting every backend exception into the sentinel update;
but a model-inference exception in the query-generation or reflection
step propagates and terminates the run early. -/
theorem early_error_amended :
    (∀ s : PyStr,
      (∃ api, parseSearchAPI s = Except.ok api) ↔
        (s = ("perplexity").toList ∨ s = ("tavily").toList ∨
          s = ("duckduckgo").toList ∨ s = ("searxng").toList)) ∧
    (∀ (state : SummaryState) (configurable : Configuration)
      (backend : BackendOracle) (e : PyStr),
      backend configurable.search_api = Except.error e →
      web_research state configurable backend =
        { sources_gathered := [("Error fetching sources").toList]
          research_loop_count := state.research_loop_count + 1
          web_research_results := [("Search failed: ").toList ++ e] }) ∧
    (∀ (state : SummaryState) (configurable : Configuration)
      (parseJson : PyStr → Option PyJson) (stripTokens : PyStr → PyStr)
      (e : PyStr),
      generate_query state configurable (Except.error e) parseJson stripTokens
          = StepResult.raised e ∧
        reflect_on_summary state configurable (Except.error e) parseJson
            stripTokens
          = StepResult.raised e) := by
  refine ⟨?_, web_research_error_sentinel, ?_⟩
  · intro s
    constructor
    · rintro ⟨api, hapi⟩
      unfold parseSearchAPI at hapi
      split_ifs at hapi with h1 h2 h3 h4
      · exact Or.inl h1
      · exact Or.inr (Or.inl h2)
      · exact Or.inr (Or.inr (Or.inl h3))
      · exact Or.inr (Or.inr (Or.inr h4))
    · intro hs
      rcases hs with h | h | h | h <;> subst h <;> exact ⟨_, rfl⟩
  · intro st c pj strip e
    exact ⟨rfl, rfl⟩

/-- Witness for the amended C8: a concrete backend failure becomes the
sentinel update, `tavily` passes validation, and a concrete model
failure is re-raised by `generate_query`. -/
theorem early_error_amended_witness :
    web_research (initState []) defaultConfiguration
        (fun _ => Except.error (("service down").toList)) =
      { sources_gathered := [("Error fetching sources").toList]
        research_loop_count := 1
        web_research_results := [("Search failed: service down").toList] } ∧
      (∃ api, parseSearchAPI (("tavily").toList) = Except.ok api) ∧
      generate_query (initState []) defaultConfiguration
          (Except.error (("llm down").toList)) (fun _ => none) id
        = StepResult.raised (("llm down").toList) := by
  refine ⟨?_, ?_, ?_⟩
  · rw [early_error_amended.2.1 (initState []) defaultConfiguration
      (fun _ => Except.error (("service down").toList))
      (("service down").toList) rfl]
    decide
  · exact (early_error_amended.1 (("tavily").toList)).mpr
      (Or.inr (Or.inl rfl))
  · exact (early_error_amended.2.2 (initState []) defaultConfiguration
      (fun _ => none) id (("llm down").toList)).1

/-- C9 (Summarization failure preservation): when the model call of the
summarize step fails, the step still returns an update — leaving a
previously set (non-empty) summary unchanged, and writing the
placeholder `Summary generation failed` when no summary existed yet. -/
theorem summarize_failure_preserves_summary :
    ∀ (state : SummaryState) (e : PyStr) (stripTokens : PyStr → PyStr)
      (configurable : Configuration),
      state.web_research_results ≠ [] →
      ((∀ t, state.running_summary = some t → t ≠ [] →
        summarize_sources state (Except.error e) stripTokens configurable
          = t) ∧
      (state.running_summary = none →
        summarize_sources state (Except.error e) stripTokens configurable
          = ("Summary generation failed").toList)) := by
  intro st e strip c hne
  obtain ⟨last, hlast⟩ : ∃ x, st.web_research_results.getLast? = some x := by
    cases hl : st.web_research_results.getLast? with
    | some x => exact ⟨x, rfl⟩
    | none => exact absurd (by simpa using hl) hne
  constructor
  · intro t ht htne
    simp [summarize_sources, hlast, ht, pyOrStr, htne]
  · intro ht
    simp [summarize_sources, hlast, ht, pyOrStr]

/-- Witness for C9: a failing model call leaves the 61-character summary
unchanged. -/
theorem summarize_failure_preserves_summary_witness :
    summarize_sources
        { initState [] with
          web_research_results := [("r").toList]
          running_summary := some longSummary }
        (Except.error (("llm down").toList)) id defaultConfiguration
      = longSummary :=
  (summarize_failure_preserves_summary
    { initState [] with
      web_research_results := [("r").toList]
      running_summary := some longSummary }
    (("llm down").toList) id defaultConfiguration (by decide)).1
    longSummary rfl (by decide)

/-- C10 (summarize_sources totality and the empty-summary edge case):
the step always returns an update — with empty `web_research_results`
the `IndexError` reaches the same handler as a model failure, producing
`running_summary or "Summary generation failed"` — and Python
truthiness treats an existing empty-string summary as unset, so it is
replaced by the placeholder on failure. -/
theorem summarize_totality_empty_edge :
    ∀ (state : SummaryState) (modelCall : Except PyStr PyStr)
      (stripTokens : PyStr → PyStr) (configurable : Configuration),
      (state.web_research_results = [] →
        summarize_sources state modelCall stripTokens configurable
          = pyOrStr state.running_summary
              (("Summary generation failed").toList)) ∧
      (state.running_summary = some [] →
        ∀ e : PyStr,
          summarize_sources state (Except.error e) stripTokens configurable
            = ("Summary generation failed").toList) := by
  intro st mc strip c
  constructor
  · intro hempty
    simp [summarize_sources, hempty]
  · intro hrs e
    cases hlast : st.web_research_results.getLast? with
    | none => simp [summarize_sources, hlast, hrs, pyOrStr]
    | some x => simp [summarize_sources, hlast, hrs, pyOrStr]

/-- Witness for C10: with no research results and an empty-string
summary, the step returns the placeholder rather than raising. -/
theorem summarize_totality_empty_edge_witness :
    summarize_sources { initState [] with running_summary := some [] }
        (Except.error (("boom").toList)) id defaultConfiguration
      = ("Summary generation failed").toList :=
  (summarize_totality_empty_edge
    { initState [] with running_summary := some [] }
    (Except.error (("boom").toList)) id defaultConfiguration).2 rfl
    (("boom").toList)
